import Mathlib

/-!
# Verification of the ReAct decision engine of `react_agent_app.py`

This file gives a shallow embedding of the core control loop
`run_structured_react_engine` of `src/day3-복잡한Agent워크플로우설계/react_agent_app.py`
and proves the documented termination, short-circuit, error-handling and
trace properties about it.

Modelling conventions:
* Python values that may be a string or a JSON object (the `tool_input : Any`
  field of the `Action` pydantic model) are modelled by `PyVal`.
* Every external call (the instructor structured-completion call, the
  `ChatPromptTemplate.format` prompt rendering, and each tool's `invoke`)
  is an oracle function returning `Except String α`; `Except.error e`
  models the call raising a Python exception with message `str(e) = e`.
  The completion oracle additionally receives the index of the call
  (0-based), mirroring a call-counting mock of the capability.
* The run result records, besides the returned value, the number of
  completion-capability calls and tool invocations that were made and the
  abstract trace of (thought, action, observation) triples accumulated by
  the loop; the string `intermediate_steps_str` that the code threads
  through the prompt is recovered from the trace by `renderTrace`.
* A `RunResult.ret` of `Except.error e` models an exception escaping
  `run_structured_react_engine` to the caller; `Except.ok v` models the
  function returning the value `v`.
-/

namespace ReactAgent

/-- A Python value as it can appear in the `tool_input : Any` field:
either a plain string or a JSON-style object. -/
inductive PyVal where
  | str : String → PyVal
  | dict : List (String × PyVal) → PyVal

/-- Whether a `PyVal` is a plain string. -/
def PyVal.isStr : PyVal → Bool
  | .str _ => true
  | .dict _ => false

mutual

/-- Python `repr()` of a `PyVal` (strings quoted), as used when a value is
rendered inside a dict. JSON-string escaping is elided: no claim depends
on the rendering of special characters. -/
def PyVal.pyRepr : PyVal → String
  | .str s => "'" ++ s ++ "'"
  | .dict kvs => "\x7b" ++ pyReprKVs kvs ++ "\x7d"

/-- Renders the entries of a dict, comma separated. -/
def pyReprKVs : List (String × PyVal) → String
  | [] => ""
  | [(k, v)] => "'" ++ k ++ "': " ++ PyVal.pyRepr v
  | (k, v) :: kv :: rest =>
      "'" ++ k ++ "': " ++ PyVal.pyRepr v ++ ", " ++ pyReprKVs (kv :: rest)

end

/-- Python `str()` of a `PyVal`, as performed by an f-string interpolation:
a top-level string is rendered without quotes. -/
def PyVal.pyStr : PyVal → String
  | .str s => s
  | .dict kvs => "\x7b" ++ pyReprKVs kvs ++ "\x7d"

/-- The structured decision object (pydantic model `Action`): a thought,
the name of the tool to use (or the literal `"Final Answer"`), and an
unconstrained input value. -/
structure Action where
  thought : String
  tool : String
  tool_input : PyVal

/-- The seven values allowed by the `Literal` type of `Action.tool`:
the six registered tool names plus the sentinel `"Final Answer"`.
A decision validates against the schema iff its `tool` is one of these. -/
def actionToolLiterals : List String :=
  ["tavily_search_results_json", "calculator_tool", "wolfram_alpha_tool",
   "blog_template_tool", "ask_user_tool", "create_study_plan_tool",
   "Final Answer"]

/-- `Action.model_dump_json()`: the JSON dump of a decision, as appended to
`intermediate_steps_str`. String escaping is elided. -/
def Action.model_dump_json (a : Action) : String :=
  "\x7b\"thought\": \"" ++ a.thought ++ "\", \"tool\": \"" ++ a.tool ++
    "\", \"tool_input\": " ++ a.tool_input.pyRepr ++ "\x7d"

/-- A registered tool: a name together with its `invoke` capability.
Tool internals are opaque external capabilities (spec §1, §4.2): `invoke`
returns a string result or fails with an exception message. -/
structure ReactTool where
  name : String
  invoke : PyVal → Except String String

/-- The tool list built by `get_tools()`. The six names are fixed by the
source; the invocation behaviours are the opaque external capabilities
behind each tool (web search, `eval`, WolframAlpha HTTP, and the three
local tools), abstracted as parameters. -/
def get_tools (searchI calcI wolframI blogI askI planI : PyVal → Except String String) :
    List ReactTool :=
  [⟨"tavily_search_results_json", searchI⟩,
   ⟨"calculator_tool", calcI⟩,
   ⟨"wolfram_alpha_tool", wolframI⟩,
   ⟨"blog_template_tool", blogI⟩,
   ⟨"ask_user_tool", askI⟩,
   ⟨"create_study_plan_tool", planI⟩]

/-- Lookup in the dict `tool_map = {tool.name: tool for tool in _tools}`:
Python dict-comprehension semantics, so a later tool with the same name
silently overwrites an earlier one (last wins). -/
def toolMapGet (tools : List ReactTool) (name : String) : Option ReactTool :=
  tools.foldl (fun acc t => if t.name = name then some t else acc) none

/-- One entry of the run's trace: the thought, the decision object and the
observation recorded by one completed iteration. -/
structure TraceEntry where
  thought : String
  action : Action
  observation : String

/-- One trace entry rendered into `intermediate_steps_str`. -/
def renderStep (e : TraceEntry) : String :=
  "\nThought: " ++ e.thought ++ "\nAction: " ++ e.action.model_dump_json ++
    "\nObservation: " ++ e.observation

/-- The accumulated `intermediate_steps_str`: the concatenation of the
rendered trace entries, in order. -/
def renderTrace (tr : List TraceEntry) : String :=
  String.join (tr.map renderStep)

/-- `history_str`: the prior turns rendered as alternating
`Human:`/`Assistant:` lines joined by newlines. -/
def historyStr (chat_history : List (String × String)) : String :=
  String.intercalate "\n"
    (chat_history.map (fun h => "Human: " ++ h.1 ++ "\nAssistant: " ++ h.2))

/-- The external collaborators of one engine run.
* `tools` is the `_tools` argument (the registry).
* `llm k p` is the result of the `k`-th (0-based) call to
  `_structured_llm.chat.completions.create` with prompt `p`:
  `Except.ok` a validated `Action`, or `Except.error` when the call or the
  response-shape validation raises.
* `renderPrompt uq hist steps` is `_prompt_template.format(...)` applied to
  the user query, the rendered history and the rendered trace; like any
  Python call it may raise, modelled by `Except.error`. -/
structure Env where
  tools : List ReactTool
  llm : Nat → String → Except String Action
  renderPrompt : String → String → String → Except String String

/-- `MAX_ITERS`: the loop bound `for i in range(10)`. -/
def MAX_ITERS : Nat := 10

/-- The fixed message returned when the iteration budget is exhausted. -/
def maxItersMsg : String := "최대 반복 횟수에 도달하여 작업을 종료합니다."

/-- The terminal error string produced by the per-iteration `except` block. -/
def engineErrorMsg (e : String) : String :=
  "ReAct 엔진 실행 중 오류가 발생했습니다: " ++ e

/-- The formatted prompt returned by the `ask_user_tool` terminal branch;
it interpolates `question = action_obj.tool_input`. -/
def askUserMsg (question : PyVal) : String :=
  "💬 **질문**: " ++ question.pyStr ++
    "\n\n위 질문에 답변해 주시면, 그 정보를 바탕으로 맞춤형 계획을 세워드리겠습니다!"

/-- The observation recorded when a registered tool's invocation raises. -/
def toolErrorObs (e : String) : String := "Tool 실행 중 오류 발생: " ++ e

/-- The observation recorded when the decision names a tool absent from
`tool_map`: the explicit "cannot find" (찾을 수 없습니다) indicator naming
the tool. -/
def toolNotFoundObs (name : String) : String :=
  "오류: '" ++ name ++ "' Tool을 찾을 수 없습니다."

/-- The observation one iteration records for a non-terminal decision:
dispatch through `tool_map`, catching an invocation exception as a
descriptive string, or the not-found error string. -/
def obsOf (tools : List ReactTool) (act : Action) : String :=
  match toolMapGet tools act.tool with
  | some t =>
    match t.invoke act.tool_input with
    | .ok r => r
    | .error e => toolErrorObs e
  | none => toolNotFoundObs act.tool

/-- The trace entry appended by an iteration that decided `act`. -/
def entryOf (tools : List ReactTool) (act : Action) : TraceEntry :=
  ⟨act.thought, act, obsOf tools act⟩

/-- The observable outcome of one engine run. `ret = Except.ok v`: the
function returned `v`; `ret = Except.error e`: an exception escaped to the
caller. `llmCalls` counts completion-capability requests, `toolCalls`
counts tool invocations, `trace` is the accumulated trace. -/
structure RunResult where
  ret : Except String PyVal
  llmCalls : Nat
  toolCalls : Nat
  trace : List TraceEntry

/-- The body of `for i in range(10)`, recursing on the remaining fuel.
Faithful to the source control flow: the prompt rendering happens before
the `try:` block, so its exception propagates (`ret = Except.error`);
everything from the completion call to the trace update is inside the
`try:`, so an exception there yields the terminal `engineErrorMsg`;
the `"Final Answer"` and `"ask_user_tool"` branches return before tool
dispatch; tool dispatch folds failures into the observation. -/
def reactLoop (env : Env) (uq hist : String) :
    Nat → Nat → Nat → List TraceEntry → RunResult
  | 0, calls, tcalls, trace => ⟨Except.ok (.str maxItersMsg), calls, tcalls, trace⟩
  | fuel + 1, calls, tcalls, trace =>
    match env.renderPrompt uq hist (renderTrace trace) with
    | .error e => ⟨Except.error e, calls, tcalls, trace⟩
    | .ok prompt =>
      match env.llm calls prompt with
      | .error e => ⟨Except.ok (.str (engineErrorMsg e)), calls + 1, tcalls, trace⟩
      | .ok act =>
        if act.tool = "Final Answer" then
          ⟨Except.ok act.tool_input, calls + 1, tcalls, trace⟩
        else if act.tool = "ask_user_tool" then
          ⟨Except.ok (.str (askUserMsg act.tool_input)), calls + 1, tcalls, trace⟩
        else
          reactLoop env uq hist fuel (calls + 1)
            (tcalls + (if (toolMapGet env.tools act.tool).isSome then 1 else 0))
            (trace ++ [entryOf env.tools act])

/-- `run_structured_react_engine(user_query, chat_history, _tools,
_structured_llm, _prompt_template)`: render the history, then run the
bounded loop from a fresh state. -/
def run_structured_react_engine (env : Env) (user_query : String)
    (chat_history : List (String × String)) : RunResult :=
  reactLoop env user_query (historyStr chat_history) MAX_ITERS 0 0 []

/-- The prompt rendering never raises (the generic situation for the
template and values of the source). -/
def rendersOk (env : Env) : Prop :=
  ∀ a b c, ∃ p, env.renderPrompt a b c = Except.ok p

/-- A decision that does not hit a terminal branch: its tool is neither the
`"Final Answer"` sentinel nor the reserved `"ask_user_tool"`. -/
def continuingAction (a : Action) : Prop :=
  a.tool ≠ "Final Answer" ∧ a.tool ≠ "ask_user_tool"

/-- The trace entries produced by `m` consecutive continuing iterations
whose decisions are `A c, A (c+1), …`. -/
def entriesFrom (tools : List ReactTool) (A : Nat → Action) : Nat → Nat → List TraceEntry
  | _, 0 => []
  | c, m + 1 => entryOf tools (A c) :: entriesFrom tools A (c + 1) m

/-- The number of tool invocations performed by those `m` iterations. -/
def toolCallsFrom (tools : List ReactTool) (A : Nat → Action) : Nat → Nat → Nat
  | _, 0 => 0
  | c, m + 1 =>
      (if (toolMapGet tools (A c).tool).isSome then 1 else 0) +
        toolCallsFrom tools A (c + 1) m

/-! ## Helper lemmas about the loop -/

/-- The number of completion calls made by the loop is bounded by the
starting count plus the remaining fuel. -/
theorem reactLoop_llmCalls_le (env : Env) (uq hist : String) :
    ∀ (fuel calls tcalls : Nat) (trace : List TraceEntry),
      (reactLoop env uq hist fuel calls tcalls trace).llmCalls ≤ calls + fuel := by
  intro fuel
  induction fuel with
  | zero => intro calls tcalls trace; simp [reactLoop]
  | succ f ih =>
    intro calls tcalls trace
    simp only [reactLoop]
    split
    · simp
    · split
      · simp
      · split
        · simp
        · split
          · simp
          · exact le_trans (ih _ _ _) (by omega)

/-- The number of completion calls made by the loop only grows. -/
theorem reactLoop_llmCalls_ge (env : Env) (uq hist : String) :
    ∀ (fuel calls tcalls : Nat) (trace : List TraceEntry),
      calls ≤ (reactLoop env uq hist fuel calls tcalls trace).llmCalls := by
  intro fuel
  induction fuel with
  | zero => intro calls tcalls trace; simp [reactLoop]
  | succ f ih =>
    intro calls tcalls trace
    simp only [reactLoop]
    split
    · simp
    · split
      · simp
      · split
        · simp
        · split
          · simp
          · exact le_trans (by omega) (ih _ _ _)

/-- If there is fuel left and the prompt rendering succeeds, at least one
more completion request is issued. -/
theorem reactLoop_llmCalls_succ (env : Env) (uq hist : String)
    (hr : rendersOk env) (fuel calls tcalls : Nat) (trace : List TraceEntry) :
    calls + 1 ≤ (reactLoop env uq hist (fuel + 1) calls tcalls trace).llmCalls := by
  obtain ⟨p, hp⟩ := hr uq hist (renderTrace trace)
  simp only [reactLoop, hp]
  split
  · simp
  · split
    · simp
    · split
      · simp
      · exact le_trans (by omega) (reactLoop_llmCalls_ge env uq hist _ _ _ _)

/-- The loop never removes trace entries: its result extends the starting
trace (the trace is append-only). -/
theorem reactLoop_trace_extends (env : Env) (uq hist : String) :
    ∀ (fuel calls tcalls : Nat) (trace : List TraceEntry),
      ∃ tl, (reactLoop env uq hist fuel calls tcalls trace).trace = trace ++ tl := by
  intro fuel
  induction fuel with
  | zero => intro calls tcalls trace; exact ⟨[], by simp [reactLoop]⟩
  | succ f ih =>
    intro calls tcalls trace
    simp only [reactLoop]
    split
    · exact ⟨[], by simp⟩
    · split
      · exact ⟨[], by simp⟩
      · split
        · exact ⟨[], by simp⟩
        · split
          · exact ⟨[], by simp⟩
          · rename_i act _ _ _
            obtain ⟨tl, htl⟩ := ih (calls + 1)
              (tcalls + (if (toolMapGet env.tools act.tool).isSome then 1 else 0))
              (trace ++ [entryOf env.tools act])
            exact ⟨[entryOf env.tools act] ++ tl, by rw [htl, List.append_assoc]⟩

/-- If the prompt rendering succeeds throughout, the loop always returns a
value: no exception escapes it. -/
theorem reactLoop_ret_ok (env : Env) (uq hist : String) (hr : rendersOk env) :
    ∀ (fuel calls tcalls : Nat) (trace : List TraceEntry),
      ∃ v, (reactLoop env uq hist fuel calls tcalls trace).ret = Except.ok v := by
  intro fuel
  induction fuel with
  | zero => intro calls tcalls trace; exact ⟨.str maxItersMsg, rfl⟩
  | succ f ih =>
    intro calls tcalls trace
    obtain ⟨p, hp⟩ := hr uq hist (renderTrace trace)
    simp only [reactLoop, hp]
    split
    · exact ⟨_, rfl⟩
    · split
      · exact ⟨_, rfl⟩
      · split
        · exact ⟨_, rfl⟩
        · exact ih _ _ _

/-- `entriesFrom` produces one entry per iteration. -/
theorem entriesFrom_length (tools : List ReactTool) (A : Nat → Action) :
    ∀ (c m : Nat), (entriesFrom tools A c m).length = m := by
  intro c m
  induction m generalizing c with
  | zero => simp [entriesFrom]
  | succ n ih => simp [entriesFrom, ih]

/-- The `k`-th entry produced by `entriesFrom` is the entry of decision
`A (c + k)`. -/
theorem entriesFrom_getElem? (tools : List ReactTool) (A : Nat → Action) :
    ∀ (m c k : Nat), k < m →
      (entriesFrom tools A c m)[k]? = some (entryOf tools (A (c + k))) := by
  intro m
  induction m with
  | zero => intro c k hk; omega
  | succ n ih =>
    intro c k hk
    cases k with
    | zero => simp [entriesFrom]
    | succ k' =>
      simp only [entriesFrom, List.getElem?_cons_succ]
      rw [ih (c + 1) k' (by omega), show c + 1 + k' = c + (k' + 1) by omega]

/-- Master step lemma: `m` consecutive iterations whose decisions are
`A calls, …, A (calls + m - 1)` and are all continuing (neither
`"Final Answer"` nor `"ask_user_tool"`) consume `m` units of fuel, issue
`m` completion requests, perform `toolCallsFrom` tool invocations and
append exactly the entries `entriesFrom`. -/
theorem reactLoop_steps (env : Env) (uq hist : String) (A : Nat → Action)
    (hr : rendersOk env) :
    ∀ (m fuel calls tcalls : Nat) (trace : List TraceEntry),
      m ≤ fuel →
      (∀ j p, j < m → env.llm (calls + j) p = Except.ok (A (calls + j))) →
      (∀ j, j < m → continuingAction (A (calls + j))) →
      reactLoop env uq hist fuel calls tcalls trace =
        reactLoop env uq hist (fuel - m) (calls + m)
          (tcalls + toolCallsFrom env.tools A calls m)
          (trace ++ entriesFrom env.tools A calls m) := by
  intro m
  induction m with
  | zero =>
    intro fuel calls tcalls trace _ _ _
    simp [entriesFrom, toolCallsFrom]
  | succ n ih =>
    intro fuel calls tcalls trace hm hA hc
    obtain ⟨f, rfl⟩ : ∃ f, fuel = f + 1 := ⟨fuel - 1, by omega⟩
    obtain ⟨p, hp⟩ := hr uq hist (renderTrace trace)
    have h0 := hA 0 p (by omega)
    have hc0 := hc 0 (by omega)
    rw [Nat.add_zero] at h0 hc0
    have step :
        reactLoop env uq hist (f + 1) calls tcalls trace =
          reactLoop env uq hist f (calls + 1)
            (tcalls + (if (toolMapGet env.tools (A calls).tool).isSome then 1 else 0))
            (trace ++ [entryOf env.tools (A calls)]) := by
      simp only [reactLoop, hp, h0]
      rw [if_neg hc0.1, if_neg hc0.2]
    rw [step, ih f (calls + 1) _ _ (by omega)
      (fun j p hj => by
        have := hA (j + 1) p (by omega)
        rwa [show calls + (j + 1) = calls + 1 + j by omega] at this)
      (fun j hj => by
        have := hc (j + 1) (by omega)
        rwa [show calls + (j + 1) = calls + 1 + j by omega] at this)]
    congr 1
    · omega
    · omega
    · simp only [toolCallsFrom]
      omega
    · simp [entriesFrom]

/-- Running the engine after `k` continuing iterations is running the loop
with `k` fewer units of fuel, `k` completion calls made, and the `k`
corresponding trace entries accumulated. -/
theorem run_after_steps (env : Env) (uq : String) (ch : List (String × String))
    (k : Nat) (A : Nat → Action) (hr : rendersOk env) (hk : k ≤ MAX_ITERS)
    (hA : ∀ j p, j < k → env.llm j p = Except.ok (A j))
    (hc : ∀ j, j < k → continuingAction (A j)) :
    run_structured_react_engine env uq ch =
      reactLoop env uq (historyStr ch) (MAX_ITERS - k) k
        (toolCallsFrom env.tools A 0 k) (entriesFrom env.tools A 0 k) := by
  unfold run_structured_react_engine
  rw [reactLoop_steps env uq (historyStr ch) A hr k MAX_ITERS 0 0 [] hk
    (fun j p hj => by simpa using hA j p hj) (fun j hj => by simpa using hc j hj)]
  simp

/-! ## The claims -/

/-- C1: every run issues at most `MAX_ITERS = 10` completion requests (the
loop body runs at most 10 times and the engine, a total function of its
oracles, always returns); and if prompt rendering succeeds and every one of
the first 10 decisions is a continuing tool decision (no `"Final Answer"`,
no `"ask_user_tool"`, no completion-capability exception), the run returns
the fixed max-iterations message after exactly 10 completion requests. -/
theorem C1_max_iterations (env : Env) (uq : String) (ch : List (String × String)) :
    (run_structured_react_engine env uq ch).llmCalls ≤ MAX_ITERS ∧
    (rendersOk env →
      ∀ A : Nat → Action,
        (∀ j p, j < MAX_ITERS → env.llm j p = Except.ok (A j)) →
        (∀ j, j < MAX_ITERS → continuingAction (A j)) →
        (run_structured_react_engine env uq ch).ret = Except.ok (.str maxItersMsg) ∧
          (run_structured_react_engine env uq ch).llmCalls = MAX_ITERS) := by
  constructor
  · simpa using reactLoop_llmCalls_le env uq (historyStr ch) MAX_ITERS 0 0 []
  · intro hr A hA hc
    rw [run_after_steps env uq ch MAX_ITERS A hr le_rfl hA hc]
    constructor <;> simp [MAX_ITERS, reactLoop]

/-- A no-op continuing decision used by concrete runs. -/
def calcAct : Action := ⟨"계산이 필요하다", "calculator_tool", .str "2+2"⟩

/-- A trivial opaque tool capability. -/
def okInvoke : PyVal → Except String String := fun _ => Except.ok "4"

theorem calcAct_continuing : continuingAction calcAct := ⟨by decide, by decide⟩

/-- Concrete collaborators where the completion capability always decides
the same continuing tool action. -/
def c1Env : Env :=
  { tools := get_tools okInvoke okInvoke okInvoke okInvoke okInvoke okInvoke,
    llm := fun _ _ => Except.ok calcAct,
    renderPrompt := fun _ _ _ => Except.ok "prompt" }

theorem C1_max_iterations_witness :
    (run_structured_react_engine c1Env "q" []).ret = Except.ok (.str maxItersMsg) ∧
      (run_structured_react_engine c1Env "q" []).llmCalls = MAX_ITERS :=
  (C1_max_iterations c1Env "q" []).2 (fun _ _ _ => ⟨"prompt", rfl⟩)
    (fun _ => calcAct) (fun _ _ _ => rfl)
    (fun _ _ => calcAct_continuing)

/-- C2: if the first `k` decisions (`k < 10`) are continuing and the
decision of iteration `k` is `"Final Answer"`, the run returns that
decision's `tool_input` immediately and the completion capability was
called exactly `k + 1` times (no iteration `k + 1` occurs). -/
theorem C2_final_answer_short_circuit (env : Env) (uq : String)
    (ch : List (String × String)) (k : Nat) (A : Nat → Action) (F : Action)
    (hr : rendersOk env) (hk : k < MAX_ITERS)
    (hA : ∀ j p, j < k → env.llm j p = Except.ok (A j))
    (hc : ∀ j, j < k → continuingAction (A j))
    (hF : ∀ p, env.llm k p = Except.ok F)
    (hFt : F.tool = "Final Answer") :
    (run_structured_react_engine env uq ch).ret = Except.ok F.tool_input ∧
      (run_structured_react_engine env uq ch).llmCalls = k + 1 := by
  rw [run_after_steps env uq ch k A hr (by omega) hA hc]
  obtain ⟨f, hf⟩ : ∃ f, MAX_ITERS - k = f + 1 := ⟨MAX_ITERS - k - 1, by omega⟩
  rw [hf]
  obtain ⟨p, hp⟩ := hr uq (historyStr ch) (renderTrace (entriesFrom env.tools A 0 k))
  simp only [reactLoop, hp, hF p, hFt]
  simp

/-- A final-answer decision carrying a plain-text answer. -/
def finalAct : Action := ⟨"답을 안다", "Final Answer", .str "2+2는 4입니다."⟩

/-- Collaborators whose very first decision is already the final answer. -/
def c2Env : Env :=
  { tools := get_tools okInvoke okInvoke okInvoke okInvoke okInvoke okInvoke,
    llm := fun _ _ => Except.ok finalAct,
    renderPrompt := fun _ _ _ => Except.ok "prompt" }

theorem C2_final_answer_short_circuit_witness :
    (run_structured_react_engine c2Env "q" []).ret = Except.ok finalAct.tool_input ∧
      (run_structured_react_engine c2Env "q" []).llmCalls = 0 + 1 :=
  C2_final_answer_short_circuit c2Env "q" [] 0 (fun _ => calcAct) finalAct
    (fun _ _ _ => ⟨"prompt", rfl⟩) (by decide)
    (fun j _ hj => absurd hj (by omega)) (fun j hj => absurd hj (by omega))
    (fun _ => rfl) rfl

/-- Collaborators whose prompt rendering raises (as any external Python
call may): `_prompt_template.format(...)` sits before the `try:` block of
the per-iteration body. -/
def c3Env : Env :=
  { tools := get_tools okInvoke okInvoke okInvoke okInvoke okInvoke okInvoke,
    llm := fun _ _ => Except.ok calcAct,
    renderPrompt := fun _ _ _ => Except.error "KeyError: 'intermediate_steps'" }

/-- C3 counterexample: an exception raised while rendering the prompt from
the run state — part of the per-iteration body, but executed before the
`try:` block — escapes `run_structured_react_engine` to the caller instead
of being converted into a terminal error string. -/
theorem C3_counterexample_render_escape :
    (run_structured_react_engine c3Env "q" []).ret =
      Except.error "KeyError: 'intermediate_steps'" := rfl

/-- C3 (amended): every exception raised inside the per-iteration `try:`
block — in particular while requesting or validating a Decision — is
caught and converted into the terminal engine-error string; consequently,
whenever the prompt rendering (which precedes the protected region) does
not raise, no exception escapes the run. An exception raised by the prompt
rendering itself does escape (see the counterexample). -/
theorem C3_error_containment (env : Env) (uq : String) (ch : List (String × String))
    (hr : rendersOk env) :
    (∃ v, (run_structured_react_engine env uq ch).ret = Except.ok v) ∧
    (∀ (k : Nat) (A : Nat → Action) (e : String),
      k < MAX_ITERS →
      (∀ j p, j < k → env.llm j p = Except.ok (A j)) →
      (∀ j, j < k → continuingAction (A j)) →
      (∀ p, env.llm k p = Except.error e) →
      (run_structured_react_engine env uq ch).ret =
        Except.ok (.str (engineErrorMsg e))) := by
  constructor
  · exact reactLoop_ret_ok env uq (historyStr ch) hr MAX_ITERS 0 0 []
  · intro k A e hk hA hc he
    rw [run_after_steps env uq ch k A hr (by omega) hA hc]
    obtain ⟨f, hf⟩ : ∃ f, MAX_ITERS - k = f + 1 := ⟨MAX_ITERS - k - 1, by omega⟩
    rw [hf]
    obtain ⟨p, hp⟩ := hr uq (historyStr ch) (renderTrace (entriesFrom env.tools A 0 k))
    simp [reactLoop, hp, he p]

/-- Collaborators whose completion capability raises on the first call
(e.g. the provider errors, or the response fails `Action` validation). -/
def c3aEnv : Env :=
  { tools := get_tools okInvoke okInvoke okInvoke okInvoke okInvoke okInvoke,
    llm := fun _ _ => Except.error "ValidationError: tool must be a Literal",
    renderPrompt := fun _ _ _ => Except.ok "prompt" }

theorem C3_error_containment_witness :
    (run_structured_react_engine c3aEnv "q" []).ret =
      Except.ok (.str (engineErrorMsg "ValidationError: tool must be a Literal")) :=
  (C3_error_containment c3aEnv "q" [] (fun _ _ _ => ⟨"prompt", rfl⟩)).2
    0 (fun _ => calcAct) "ValidationError: tool must be a Literal" (by decide)
    (fun j _ hj => absurd hj (by omega)) (fun j hj => absurd hj (by omega))
    (fun _ => rfl)

/-- C4: a decision naming a tool that is neither registered nor one of the
reserved sentinels leads to the not-found error observation being recorded
for that iteration, and the loop continues: iteration `k + 1` issues the
next completion request (so at least `k + 2` requests are made). -/
theorem C4_unknown_tool_recovery (env : Env) (uq : String)
    (ch : List (String × String)) (k : Nat) (A : Nat → Action)
    (hr : rendersOk env) (hk : k + 1 < MAX_ITERS)
    (hA : ∀ j p, j ≤ k → env.llm j p = Except.ok (A j))
    (hc : ∀ j, j ≤ k → continuingAction (A j))
    (hunk : toolMapGet env.tools (A k).tool = none) :
    (run_structured_react_engine env uq ch).trace[k]? =
      some ⟨(A k).thought, A k, toolNotFoundObs (A k).tool⟩ ∧
      k + 2 ≤ (run_structured_react_engine env uq ch).llmCalls := by
  rw [run_after_steps env uq ch (k + 1) A hr (by omega)
    (fun j p hj => hA j p (by omega)) (fun j hj => hc j (by omega))]
  obtain ⟨f, hf⟩ : ∃ f, MAX_ITERS - (k + 1) = f + 1 := ⟨MAX_ITERS - (k + 1) - 1, by omega⟩
  rw [hf]
  constructor
  · obtain ⟨tl, htl⟩ := reactLoop_trace_extends env uq (historyStr ch) (f + 1) (k + 1)
      (toolCallsFrom env.tools A 0 (k + 1)) (entriesFrom env.tools A 0 (k + 1))
    rw [htl, List.getElem?_append_left (by rw [entriesFrom_length]; omega),
      entriesFrom_getElem? env.tools A (k + 1) 0 k (by omega)]
    simp only [Nat.zero_add]
    simp [entryOf, obsOf, hunk]
  · exact reactLoop_llmCalls_succ env uq (historyStr ch) hr f (k + 1) _ _

/-- A decision naming a tool that exists in neither the registry nor the
sentinels (a name outside the `Action.tool` literals). -/
def unknownAct : Action := ⟨"생각", "weather_tool", .str "서울"⟩

theorem unknownAct_continuing : continuingAction unknownAct := ⟨by decide, by decide⟩

/-- Collaborators that keep deciding the unknown tool. -/
def c4Env : Env :=
  { tools := get_tools okInvoke okInvoke okInvoke okInvoke okInvoke okInvoke,
    llm := fun _ _ => Except.ok unknownAct,
    renderPrompt := fun _ _ _ => Except.ok "prompt" }

theorem C4_unknown_tool_recovery_witness :
    (run_structured_react_engine c4Env "q" []).trace[0]? =
      some ⟨unknownAct.thought, unknownAct, toolNotFoundObs unknownAct.tool⟩ ∧
      0 + 2 ≤ (run_structured_react_engine c4Env "q" []).llmCalls :=
  C4_unknown_tool_recovery c4Env "q" [] 0 (fun _ => unknownAct)
    (fun _ _ _ => ⟨"prompt", rfl⟩) (by decide)
    (fun _ _ _ => rfl) (fun _ _ => unknownAct_continuing) rfl

/-- C5: if the decision of iteration `k` names a registered (non-sentinel)
tool whose invocation raises, the observation recorded for that iteration
is the descriptive failure string, the loop continues (iteration `k + 1`
issues the next completion request), and — prompt rendering succeeding —
no exception escapes the run. -/
theorem C5_tool_failure_isolation (env : Env) (uq : String)
    (ch : List (String × String)) (k : Nat) (A : Nat → Action)
    (t : ReactTool) (e : String)
    (hr : rendersOk env) (hk : k + 1 < MAX_ITERS)
    (hA : ∀ j p, j ≤ k → env.llm j p = Except.ok (A j))
    (hc : ∀ j, j ≤ k → continuingAction (A j))
    (hfound : toolMapGet env.tools (A k).tool = some t)
    (hinv : t.invoke (A k).tool_input = Except.error e) :
    (run_structured_react_engine env uq ch).trace[k]? =
      some ⟨(A k).thought, A k, toolErrorObs e⟩ ∧
      k + 2 ≤ (run_structured_react_engine env uq ch).llmCalls ∧
      ∃ v, (run_structured_react_engine env uq ch).ret = Except.ok v := by
  refine ⟨?_, ?_, ?_⟩
  · rw [run_after_steps env uq ch (k + 1) A hr (by omega)
      (fun j p hj => hA j p (by omega)) (fun j hj => hc j (by omega))]
    obtain ⟨tl, htl⟩ := reactLoop_trace_extends env uq (historyStr ch)
      (MAX_ITERS - (k + 1)) (k + 1)
      (toolCallsFrom env.tools A 0 (k + 1)) (entriesFrom env.tools A 0 (k + 1))
    rw [htl, List.getElem?_append_left (by rw [entriesFrom_length]; omega),
      entriesFrom_getElem? env.tools A (k + 1) 0 k (by omega)]
    simp only [Nat.zero_add]
    simp [entryOf, obsOf, hfound, hinv]
  · rw [run_after_steps env uq ch (k + 1) A hr (by omega)
      (fun j p hj => hA j p (by omega)) (fun j hj => hc j (by omega))]
    obtain ⟨f, hf⟩ : ∃ f, MAX_ITERS - (k + 1) = f + 1 := ⟨MAX_ITERS - (k + 1) - 1, by omega⟩
    rw [hf]
    exact reactLoop_llmCalls_succ env uq (historyStr ch) hr f (k + 1) _ _
  · exact reactLoop_ret_ok env uq (historyStr ch) hr MAX_ITERS 0 0 []

/-- A tool capability that raises (e.g. `eval("1/0")`). -/
def raisingInvoke : PyVal → Except String String :=
  fun _ => Except.error "ZeroDivisionError: division by zero"

/-- A decision invoking the calculator on input that makes it raise. -/
def divAct : Action := ⟨"계산", "calculator_tool", .str "1/0"⟩

theorem divAct_continuing : continuingAction divAct := ⟨by decide, by decide⟩

/-- Collaborators whose calculator raises on every invocation. -/
def c5Env : Env :=
  { tools := get_tools okInvoke raisingInvoke okInvoke okInvoke okInvoke okInvoke,
    llm := fun _ _ => Except.ok divAct,
    renderPrompt := fun _ _ _ => Except.ok "prompt" }

theorem C5_tool_failure_isolation_witness :
    (run_structured_react_engine c5Env "q" []).trace[0]? =
      some ⟨divAct.thought, divAct, toolErrorObs "ZeroDivisionError: division by zero"⟩ ∧
      0 + 2 ≤ (run_structured_react_engine c5Env "q" []).llmCalls ∧
      ∃ v, (run_structured_react_engine c5Env "q" []).ret = Except.ok v :=
  C5_tool_failure_isolation c5Env "q" [] 0 (fun _ => divAct)
    ⟨"calculator_tool", raisingInvoke⟩ "ZeroDivisionError: division by zero"
    (fun _ _ _ => ⟨"prompt", rfl⟩) (by decide)
    (fun _ _ _ => rfl) (fun _ _ => divAct_continuing) rfl rfl

/-- Collaborators whose first decision is `"Final Answer"` with a JSON
object (not a string) in `tool_input` — which the `Any`-typed field
admits. -/
def c6Env : Env :=
  { tools := get_tools okInvoke okInvoke okInvoke okInvoke okInvoke okInvoke,
    llm := fun _ _ => Except.ok ⟨"끝", "Final Answer", .dict [("answer", .str "4")]⟩,
    renderPrompt := fun _ _ _ => Except.ok "prompt" }

/-- C6 counterexample: on a `"Final Answer"` decision the engine returns
`tool_input` verbatim; since `tool_input : Any` is unconstrained, a run can
return a JSON object rather than a string. -/
theorem C6_counterexample_nonstring_return :
    (run_structured_react_engine c6Env "q" []).ret =
        Except.ok (PyVal.dict [("answer", PyVal.str "4")]) ∧
      (PyVal.dict [("answer", PyVal.str "4")]).isStr = false :=
  ⟨rfl, rfl⟩

/-- If prompt rendering succeeds and every `"Final Answer"` decision the
completion capability can produce carries a string `tool_input`, the loop
returns a string. -/
theorem reactLoop_ret_str (env : Env) (uq hist : String) (hr : rendersOk env)
    (hfa : ∀ k p a, env.llm k p = Except.ok a → a.tool = "Final Answer" →
      a.tool_input.isStr = true) :
    ∀ (fuel calls tcalls : Nat) (trace : List TraceEntry),
      ∃ v, (reactLoop env uq hist fuel calls tcalls trace).ret = Except.ok v ∧
        v.isStr = true := by
  intro fuel
  induction fuel with
  | zero => intro calls tcalls trace; exact ⟨.str maxItersMsg, rfl, rfl⟩
  | succ f ih =>
    intro calls tcalls trace
    obtain ⟨p, hp⟩ := hr uq hist (renderTrace trace)
    simp only [reactLoop, hp]
    split
    · exact ⟨_, rfl, rfl⟩
    · rename_i act heq
      split
      · rename_i hfinal
        exact ⟨act.tool_input, rfl, hfa calls p act heq hfinal⟩
      · split
        · exact ⟨_, rfl, rfl⟩
        · exact ih _ _ _

/-- C6 (amended): the three engine-generated terminal outcomes (ask-user
prompt, max-iterations message, engine-error message) are strings, and the
`"Final Answer"` outcome returns the decision's `tool_input` verbatim — so
the run returns a string whenever every final-answer decision carries a
string `tool_input`, but not in general (see the counterexample). -/
theorem C6_string_outcomes (env : Env) (uq : String) (ch : List (String × String))
    (hr : rendersOk env)
    (hfa : ∀ k p a, env.llm k p = Except.ok a → a.tool = "Final Answer" →
      a.tool_input.isStr = true) :
    ∃ v, (run_structured_react_engine env uq ch).ret = Except.ok v ∧
      v.isStr = true :=
  reactLoop_ret_str env uq (historyStr ch) hr hfa MAX_ITERS 0 0 []

/-- Collaborators whose decisions are a tool call and then a string-valued
final answer. -/
def c6aEnv : Env :=
  { tools := get_tools okInvoke okInvoke okInvoke okInvoke okInvoke okInvoke,
    llm := fun k _ => if k = 0 then Except.ok calcAct else Except.ok finalAct,
    renderPrompt := fun _ _ _ => Except.ok "prompt" }

theorem C6_string_outcomes_witness :
    ∃ v, (run_structured_react_engine c6aEnv "q" []).ret = Except.ok v ∧
      v.isStr = true :=
  C6_string_outcomes c6aEnv "q" [] (fun _ _ _ => ⟨"prompt", rfl⟩)
    (fun k _ a ha hfin => by
      by_cases hk : k = 0
      · simp only [c6aEnv, hk, if_pos rfl] at ha
        cases ha
        exact absurd hfin (by decide)
      · simp only [c6aEnv, if_neg hk] at ha
        cases ha
        rfl)

/-- C7: a decision naming the reserved `"ask_user_tool"` halts the loop at
that iteration regardless of the remaining budget: the run returns the
formatted question prompt (whose text contains the question carried in the
decision's `tool_input`), the completion capability is not called again,
and no tool is invoked for that decision (the tool-invocation count stays
at what the first `k` iterations performed). -/
theorem C7_ask_user_short_circuit (env : Env) (uq : String)
    (ch : List (String × String)) (k : Nat) (A : Nat → Action) (F : Action)
    (hr : rendersOk env) (hk : k < MAX_ITERS)
    (hA : ∀ j p, j < k → env.llm j p = Except.ok (A j))
    (hc : ∀ j, j < k → continuingAction (A j))
    (hF : ∀ p, env.llm k p = Except.ok F)
    (hFt : F.tool = "ask_user_tool") :
    (run_structured_react_engine env uq ch).ret =
        Except.ok (.str (askUserMsg F.tool_input)) ∧
      (run_structured_react_engine env uq ch).llmCalls = k + 1 ∧
      (run_structured_react_engine env uq ch).toolCalls =
        toolCallsFrom env.tools A 0 k ∧
      ∃ pre post, (askUserMsg F.tool_input).data =
        pre ++ F.tool_input.pyStr.data ++ post := by
  rw [run_after_steps env uq ch k A hr (by omega) hA hc]
  obtain ⟨f, hf⟩ : ∃ f, MAX_ITERS - k = f + 1 := ⟨MAX_ITERS - k - 1, by omega⟩
  rw [hf]
  obtain ⟨p, hp⟩ := hr uq (historyStr ch) (renderTrace (entriesFrom env.tools A 0 k))
  simp only [reactLoop, hp, hF p, hFt]
  refine ⟨by simp, by simp, by simp, ("💬 **질문**: ").data,
    ("\n\n위 질문에 답변해 주시면, 그 정보를 바탕으로 맞춤형 계획을 세워드리겠습니다!").data, ?_⟩
  simp [askUserMsg, String.data_append]

/-- A decision pausing the run to ask the user a question. -/
def askAct : Action := ⟨"정보가 더 필요하다", "ask_user_tool", .str "어떤 스타일을 원하세요?"⟩

/-- Collaborators whose first decision asks the user. -/
def c7Env : Env :=
  { tools := get_tools okInvoke okInvoke okInvoke okInvoke okInvoke okInvoke,
    llm := fun _ _ => Except.ok askAct,
    renderPrompt := fun _ _ _ => Except.ok "prompt" }

theorem C7_ask_user_short_circuit_witness :
    (run_structured_react_engine c7Env "q" []).ret =
        Except.ok (.str (askUserMsg askAct.tool_input)) ∧
      (run_structured_react_engine c7Env "q" []).llmCalls = 0 + 1 ∧
      (run_structured_react_engine c7Env "q" []).toolCalls =
        toolCallsFrom c7Env.tools (fun _ => calcAct) 0 0 ∧
      ∃ pre post, (askUserMsg askAct.tool_input).data =
        pre ++ askAct.tool_input.pyStr.data ++ post :=
  C7_ask_user_short_circuit c7Env "q" [] 0 (fun _ => calcAct) askAct
    (fun _ _ _ => ⟨"prompt", rfl⟩) (by decide)
    (fun j _ hj => absurd hj (by omega)) (fun j hj => absurd hj (by omega))
    (fun _ => rfl) rfl

/-- A registry list containing two tools with the same name. -/
def dupTools : List ReactTool :=
  [⟨"dup_tool", fun _ => Except.ok "first"⟩,
   ⟨"dup_tool", fun _ => Except.ok "second"⟩]

/-- Collaborators running over the colliding registry: the first decision
invokes the duplicated name, the second finishes. -/
def c8Env : Env :=
  { tools := dupTools,
    llm := fun k _ => if k = 0 then Except.ok ⟨"생각", "dup_tool", .str "x"⟩
      else Except.ok ⟨"끝", "Final Answer", .str "done"⟩,
    renderPrompt := fun _ _ _ => Except.ok "prompt" }

/-- C8 counterexample: a registry built from a tool list with two tools of
the same name is not rejected at build time — the run proceeds normally
and the collision is silently resolved at call time in favour of the later
tool (its observation `"second"` is recorded), contradicting the claim
that a collision is reported as a configuration error before any run. -/
theorem C8_counterexample_silent_collision :
    (run_structured_react_engine c8Env "q" []).trace[0]? =
        some ⟨"생각", ⟨"생각", "dup_tool", .str "x"⟩, "second"⟩ ∧
      (run_structured_react_engine c8Env "q" []).ret = Except.ok (.str "done") :=
  ⟨rfl, rfl⟩

/-- C8 (amended): the six tools registered by `get_tools` do have pairwise
distinct names, so the concrete registry is collision-free; but the
registry build performs no uniqueness check: for any tool list, looking up
the name of the last-appended tool yields that tool (dict semantics, last
registration silently wins), with no error reported at build time. -/
theorem C8_unique_names_build :
    (∀ i1 i2 i3 i4 i5 i6,
      ((get_tools i1 i2 i3 i4 i5 i6).map ReactTool.name).Nodup) ∧
    (∀ (ts : List ReactTool) (t : ReactTool),
      toolMapGet (ts ++ [t]) t.name = some t) := by
  constructor
  · intro i1 i2 i3 i4 i5 i6
    simp only [get_tools, List.map_cons, List.map_nil]
    decide
  · intro ts t
    simp [toolMapGet, List.foldl_append]

/-- C9: under `n ≤ 10` completed continuing iterations followed by
termination (budget exhaustion at `n = 10`, or a `"Final Answer"` at
iteration `n`), the final trace is exactly the `n` entries appended one
per iteration, in order, the `k`-th holding iteration `k`'s thought,
decision and observation. -/
theorem C9_trace_growth (env : Env) (uq : String) (ch : List (String × String))
    (n : Nat) (A : Nat → Action)
    (hr : rendersOk env) (hn : n ≤ MAX_ITERS)
    (hA : ∀ j p, j < n → env.llm j p = Except.ok (A j))
    (hc : ∀ j, j < n → continuingAction (A j))
    (hterm : n = MAX_ITERS ∨
      ∀ p, ∃ a, env.llm n p = Except.ok a ∧ a.tool = "Final Answer") :
    (run_structured_react_engine env uq ch).trace = entriesFrom env.tools A 0 n ∧
      (run_structured_react_engine env uq ch).trace.length = n ∧
      ∀ k, k < n → (run_structured_react_engine env uq ch).trace[k]? =
        some ⟨(A k).thought, A k, obsOf env.tools (A k)⟩ := by
  have htr : (run_structured_react_engine env uq ch).trace =
      entriesFrom env.tools A 0 n := by
    rw [run_after_steps env uq ch n A hr hn hA hc]
    by_cases hn10 : n = MAX_ITERS
    · rw [hn10]
      simp [reactLoop]
    · rcases hterm with h10 | hfin
      · exact absurd h10 hn10
      · obtain ⟨f, hf⟩ : ∃ f, MAX_ITERS - n = f + 1 :=
          ⟨MAX_ITERS - n - 1, by omega⟩
        rw [hf]
        obtain ⟨p, hp⟩ := hr uq (historyStr ch)
          (renderTrace (entriesFrom env.tools A 0 n))
        obtain ⟨a, ha, hat⟩ := hfin p
        simp [reactLoop, hp, ha, hat]
  refine ⟨htr, by rw [htr, entriesFrom_length], ?_⟩
  intro k hk
  rw [htr, entriesFrom_getElem? env.tools A n 0 k hk]
  simp only [Nat.zero_add]
  rfl

/-- Collaborators deciding one calculator call and then the final answer. -/
def c9Env : Env :=
  { tools := get_tools okInvoke okInvoke okInvoke okInvoke okInvoke okInvoke,
    llm := fun k _ => if k = 0 then Except.ok calcAct else Except.ok finalAct,
    renderPrompt := fun _ _ _ => Except.ok "prompt" }

theorem C9_trace_growth_witness :
    (run_structured_react_engine c9Env "q" []).trace =
        entriesFrom c9Env.tools (fun _ => calcAct) 0 1 ∧
      (run_structured_react_engine c9Env "q" []).trace.length = 1 ∧
      ∀ k, k < 1 → (run_structured_react_engine c9Env "q" []).trace[k]? =
        some ⟨((fun _ => calcAct) k).thought, (fun _ => calcAct) k,
          obsOf c9Env.tools ((fun _ => calcAct) k)⟩ :=
  C9_trace_growth c9Env "q" [] 1 (fun _ => calcAct)
    (fun _ _ _ => ⟨"prompt", rfl⟩) (by decide)
    (fun j _ hj => by
      have : j = 0 := by omega
      simp [c9Env, this])
    (fun j hj => calcAct_continuing)
    (Or.inr (fun p => ⟨finalAct, by simp [c9Env], rfl⟩))

/-- C10: every tool name allowed by the `Action` schema's `Literal` type,
other than the two specially handled sentinels `"Final Answer"` and
`"ask_user_tool"`, is a key of the tool map built from the six tools of
`get_tools` — so a schema-valid decision reaching the dispatch step always
resolves to a registered tool and the not-found branch is unreachable for
it. -/
theorem C10_schema_valid_dispatch (name : String)
    (hmem : name ∈ actionToolLiterals)
    (hfa : name ≠ "Final Answer") (hau : name ≠ "ask_user_tool")
    (i1 i2 i3 i4 i5 i6 : PyVal → Except String String) :
    (toolMapGet (get_tools i1 i2 i3 i4 i5 i6) name).isSome = true := by
  simp only [actionToolLiterals, List.mem_cons, List.not_mem_nil, or_false] at hmem
  rcases hmem with rfl | rfl | rfl | rfl | rfl | rfl | rfl
  · rfl
  · rfl
  · rfl
  · rfl
  · exact absurd rfl hau
  · rfl
  · exact absurd rfl hfa

theorem C10_schema_valid_dispatch_witness :
    (toolMapGet (get_tools okInvoke okInvoke okInvoke okInvoke okInvoke okInvoke)
      "calculator_tool").isSome = true :=
  C10_schema_valid_dispatch "calculator_tool" (by decide) (by decide) (by decide)
    okInvoke okInvoke okInvoke okInvoke okInvoke okInvoke

end ReactAgent
